import Mathlib

set_option autoImplicit false

/-!
Shallow embedding of the wedplan seating-optimization backend.

The source tree mixes two revisions of the package. The files mapping.py,
cp_sat.py and extract.py belong to the later signed-affinity design: they
pull in a GroupIn request model, read request.groups, and call the objective
and constraint builders with the later arities. The files models.py,
objective.py and constraints.py are stale earlier revisions: models.py lacks
GroupIn, its affinity edge is guest-keyed with a nonnegative score, and the
builder signatures no longer match their call sites in cp_sat.py. Where a
claim is decided by a later-revision module absent from the tree, the
corresponding definition below is modelled from the spec and says so in its
doc comment; everything else is translated directly from the sources.
-/

namespace Wedplan

/-- JSON-level value as seen by the strict request models. Python floats and
strings are runtime types distinct from int, which is what pydantic strict
mode inspects. A float is carried as a decimal mantissa and exponent. -/
inductive JVal where
  | jnull
  | jbool (b : Bool)
  | jint (n : Int)
  | jfloat (mantissa : Int) (exponent : Int)
  | jstr (s : String)
  deriving DecidableEq

/-- Schema-level rejection reasons raised by the strict request models. -/
inductive SchemaError where
  | wrongType
  | outOfRange
  deriving DecidableEq

/-- Validation of the TableIn capacity field, from models.py: capacity is a
StrictInt with a lower bound of 2, so strict mode admits only runtime ints,
never floats or numeric strings, and the bound rejects values below 2. -/
def parseCapacity : JVal → Except SchemaError Int
  | JVal.jint n => if 2 ≤ n then Except.ok n else Except.error SchemaError.outOfRange
  | _ => Except.error SchemaError.wrongType

/-- Modelled from the spec: score validation of the affinity edge model of
the live signed-affinity pipeline. The models.py revision in the tree is a
stale earlier dialect whose affinity edge is guest-keyed with a nonnegative
score, and it lacks the GroupIn class that mapping.py imports, so the edge
schema actually consumed by the pipeline is absent; the spec fixes the score
as a strict int equal to -1, 0 or +1. -/
def parseScore : JVal → Except SchemaError Int
  | JVal.jint n =>
    if n = -1 ∨ n = 0 ∨ n = 1 then Except.ok n else Except.error SchemaError.outOfRange
  | _ => Except.error SchemaError.wrongType

/-- Modelled from the spec: the GroupIn request model, imported by mapping.py
and constructed throughout the tests but missing from the models.py revision
in the tree. A group carries an id and a non-empty list of guest ids. -/
structure GroupIn where
  id : String
  guest_ids : List String
  deriving DecidableEq

/-- Modelled from the spec: GroupIn admits any group whose guest id list is
non-empty, singletons included. -/
def validateGroupIn (g : GroupIn) : Bool :=
  !g.guest_ids.isEmpty

/-- Post-parse table record, from models.py TableIn. -/
structure TableIn where
  id : String
  capacity : Nat
  label : Option String
  deriving DecidableEq

/-- Post-parse guest record, from models.py GuestIn. -/
structure GuestIn where
  id : String
  name : String
  deriving DecidableEq

/-- Modelled from the spec: the signed affinity edge between two groups of
the live pipeline, with an integer score equal to -1, 0 or +1. -/
structure AffinityEdgeIn where
  a : String
  b : String
  score : Int
  deriving DecidableEq

/-- Solver options; only the field the validator consults is carried. -/
structure SolveOptions where
  allow_empty_seats : Bool
  deriving DecidableEq

/-- The optimization request consumed by create_mapping in mapping.py. -/
structure OptimizeRequest where
  tables : List TableIn
  guests : List GuestIn
  groups : List GroupIn
  affinities : List AffinityEdgeIn
  options : SolveOptions
  deriving DecidableEq

/-- Table metadata for the solver, from mapping.py TableInfo. -/
structure TableInfo where
  id : String
  index : Nat
  capacity : Nat
  label : Option String
  deriving DecidableEq

/-- Guest metadata for the solver, from mapping.py GuestInfo. -/
structure GuestInfo where
  id : String
  index : Nat
  name : String
  deriving DecidableEq

/-- Group metadata for the solver, from mapping.py GroupInfo. -/
structure GroupInfo where
  id : String
  index : Nat
  guest_indices : List Nat
  deriving DecidableEq

/-- Complete mapping from request ids to solver indices, from mapping.py;
python dicts are carried as association lists. -/
structure ProblemMapping where
  tables : List TableInfo
  guests : List GuestInfo
  groups : List GroupInfo
  guest_id_to_index : List (String × Nat)
  table_id_to_index : List (String × Nat)
  group_id_to_index : List (String × Nat)
  total_seats : Nat
  deriving DecidableEq

/-- Typed domain errors, from errors.py; groupNotFound, duplicateGroupMember
and groupTooLarge are the error kinds of the later validator named by the
spec, of which only groupNotFound is declared in the errors.py revision in
the tree. -/
inductive WedplanError where
  | duplicateId (entityType : String) (entityId : String)
  | guestNotFound (guestId : String) (context : String)
  | groupNotFound (groupId : String) (context : String)
  | duplicateGroupMember (guestId : String)
  | groupTooLarge (size : Nat) (maxCapacity : Nat)
  | capacityError (message : String)
  deriving DecidableEq

/-- Mirrors the unique-id walk of mapping.py: scan the ids with a seen set
and fail at the first id already seen. -/
def checkUnique (entityType : String) (seen : List String) : List String → Except WedplanError Unit
  | [] => Except.ok ()
  | i :: rest =>
    if i ∈ seen then Except.error (WedplanError.duplicateId entityType i)
    else checkUnique entityType (i :: seen) rest

/-- The three uniqueness passes of create_mapping in mapping.py. -/
def uniquenessCheck (req : OptimizeRequest) : Except WedplanError Unit := do
  checkUnique ("table") [] (req.tables.map TableIn.id)
  checkUnique ("guest") [] (req.guests.map GuestIn.id)
  checkUnique ("group") [] (req.groups.map GroupIn.id)

/-- Guest id to contiguous index, from mapping.py; ids are unique whenever
this map is consulted, so association-list lookup agrees with the dict. -/
def guestIdMap (guests : List GuestIn) : List (String × Nat) :=
  guests.enum.map (fun p => (p.2.id, p.1))

/-- Group id to contiguous index, from mapping.py. -/
def groupIdMap (groups : List GroupIn) : List (String × Nat) :=
  groups.enum.map (fun p => (p.2.id, p.1))

/-- Table id to contiguous index, from mapping.py. -/
def tableIdMap (tables : List TableIn) : List (String × Nat) :=
  tables.enum.map (fun p => (p.2.id, p.1))

/-- Table info tuple, from mapping.py create_mapping. -/
def tableInfos (tables : List TableIn) : List TableInfo :=
  tables.enum.map (fun p => ⟨p.2.id, p.1, p.2.capacity, p.2.label⟩)

/-- Guest info tuple, from mapping.py create_mapping. -/
def guestInfos (guests : List GuestIn) : List GuestInfo :=
  guests.enum.map (fun p => ⟨p.2.id, p.1, p.2.name⟩)

/-- First element of the list that also occurs earlier in it. -/
def firstDup (seen : List String) : List String → Option String
  | [] => none
  | i :: rest => if i ∈ seen then some i else firstDup (i :: seen) rest

/-- Mirrors the member-resolution loop of build_group_info in mapping.py:
each member id must resolve through the guest index map. -/
def resolveMembers (groupId : String) (gmap : List (String × Nat)) : List String → Except WedplanError (List Nat)
  | [] => Except.ok []
  | gid :: rest =>
    match List.lookup gid gmap with
    | none => Except.error (WedplanError.guestNotFound gid ("group " ++ groupId))
    | some idx => do
      let tail ← resolveMembers groupId gmap rest
      Except.ok (idx :: tail)

/-- Group info construction, from build_group_info in mapping.py, extended
with the duplicate-member rejection modelled from the spec (the
DuplicateGroupMember error of the later validator is absent from the tree,
its test being the only trace). -/
def buildGroupInfosFrom (gmap : List (String × Nat)) (i : Nat) : List GroupIn → Except WedplanError (List GroupInfo)
  | [] => Except.ok []
  | g :: rest => do
    let idxs ← resolveMembers g.id gmap g.guest_ids
    match firstDup [] g.guest_ids with
    | some d => Except.error (WedplanError.duplicateGroupMember d)
    | none => do
      let tail ← buildGroupInfosFrom gmap (i + 1) rest
      Except.ok (⟨g.id, i, idxs⟩ :: tail)

/-- Group infos of a request. -/
def groupInfosE (req : OptimizeRequest) : Except WedplanError (List GroupInfo) :=
  buildGroupInfosFrom (guestIdMap req.guests) 0 req.groups

/-- Modelled from the spec: every group id referenced by an affinity edge
must exist, otherwise GroupNotFound; this reference check of the later
validator is absent from the tree. -/
def checkAffinityRefs (gmap : List (String × Nat)) : List AffinityEdgeIn → Except WedplanError Unit
  | [] => Except.ok ()
  | e :: rest =>
    match List.lookup e.a gmap with
    | none => Except.error (WedplanError.groupNotFound e.a ("affinity edge"))
    | some _ =>
      match List.lookup e.b gmap with
      | none => Except.error (WedplanError.groupNotFound e.b ("affinity edge"))
      | some _ => checkAffinityRefs gmap rest

/-- Largest table capacity of the request. -/
def maxCapacity (tables : List TableIn) : Nat :=
  (tables.map TableIn.capacity).foldl Nat.max 0

/-- Aggregate seat capacity, from mapping.py create_mapping. -/
def totalSeats (tables : List TableIn) : Nat :=
  (tables.map TableIn.capacity).sum

/-- Modelled from the spec: reject the first group whose member count
exceeds the largest table capacity, carrying the size and that maximum;
the GroupTooLarge check of the later validator is absent from the tree. -/
def sizeCheck (maxCap : Nat) : List GroupInfo → Except WedplanError Unit
  | [] => Except.ok ()
  | gi :: rest =>
    if maxCap < gi.guest_indices.length
    then Except.error (WedplanError.groupTooLarge gi.guest_indices.length maxCap)
    else sizeCheck maxCap rest

/-- Message of the aggregate-capacity rejection. -/
def capacityMessage : String :=
  "guest count does not equal total seat capacity while empty seats are disallowed"

/-- Modelled from the spec: when allow_empty_seats is false the total guest
count must equal the aggregate seat capacity, otherwise CapacityError; the
check of the later validator is absent from the tree, only the CapacityError
class in errors.py remaining. -/
def capacityCheck (options : SolveOptions) (numGuests : Nat) (seats : Nat) : Except WedplanError Unit :=
  if options.allow_empty_seats then Except.ok ()
  else if numGuests = seats then Except.ok ()
  else Except.error (WedplanError.capacityError capacityMessage)

/-- The validator and mapper. The skeleton (uniqueness passes, index maps,
group resolution, aggregate seats) follows create_mapping in mapping.py;
the affinity reference, group size and capacity checks are modelled from
the spec, which orders them uniqueness first, then reference validity,
then size and capacity feasibility. -/
def create_mapping (req : OptimizeRequest) : Except WedplanError ProblemMapping := do
  uniquenessCheck req
  let gis ← groupInfosE req
  checkAffinityRefs (groupIdMap req.groups) req.affinities
  sizeCheck (maxCapacity req.tables) gis
  capacityCheck req.options req.guests.length (totalSeats req.tables)
  Except.ok ⟨tableInfos req.tables, guestInfos req.guests, gis,
    guestIdMap req.guests, tableIdMap req.tables, groupIdMap req.groups,
    totalSeats req.tables⟩

/-- Status translation, from extract.py: the known codes map to their names
and everything else falls back to UNKNOWN. -/
def statusToString (status : Int) : String :=
  if status = 0 then "UNKNOWN"
  else if status = 1 then "MODEL_INVALID"
  else if status = 2 then "FEASIBLE"
  else if status = 3 then "INFEASIBLE"
  else if status = 4 then "OPTIMAL"
  else "UNKNOWN"

/-- Seat assignment record, from models.py SeatAssignment. -/
structure SeatAssignment where
  seat_index : Nat
  guest_id : Option String
  guest_name : Option String
  deriving DecidableEq

/-- Table assignment record, from models.py TableAssignment. -/
structure TableAssignment where
  table_id : String
  seats : List SeatAssignment
  deriving DecidableEq

/-- Solver statistics surfaced in every response; the wall-clock float of
the source is abstracted away. -/
structure SolverStats where
  conflicts : Int
  branches : Int
  deriving DecidableEq

/-- Optimization response, from models.py OptimizeResponse. -/
structure OptimizeResponse where
  status : String
  objective_value : Option Int
  tables : List TableAssignment
  solver_stats : SolverStats
  deriving DecidableEq

/-- Placeholder table info for out-of-range indexing, never reached. -/
def defaultTableInfo : TableInfo := ⟨"", 0, 0, none⟩

/-- Placeholder guest info for out-of-range indexing, never reached. -/
def defaultGuestInfo : GuestInfo := ⟨"", 0, ""⟩

/-- Placeholder table assignment for out-of-range indexing. -/
def defaultTableAssignment : TableAssignment := ⟨"", []⟩

/-- Placeholder seat assignment for out-of-range indexing. -/
def defaultSeat : SeatAssignment := ⟨0, none, none⟩

/-- One seat entry, from the inner loop of extract_solution in extract.py:
the first guest index whose decision variable is set occupies the seat,
otherwise the seat is emitted empty. -/
def buildSeat (m : ProblemMapping) (bv : Nat → Nat → Nat → Bool) (t s : Nat) : SeatAssignment :=
  match (List.range m.guests.length).find? (fun g => bv g t s) with
  | some g =>
    let gu := m.guests.getD g defaultGuestInfo
    ⟨s, some gu.id, some gu.name⟩
  | none => ⟨s, none, none⟩

/-- One table entry, from the outer loop of extract_solution in extract.py:
seat indices run over the capacity of the table in order. -/
def buildTableAssign (m : ProblemMapping) (bv : Nat → Nat → Nat → Bool) (t : Nat) : TableAssignment :=
  let tb := m.tables.getD t defaultTableInfo
  ⟨tb.id, (List.range tb.capacity).map (fun s => buildSeat m bv t s)⟩

/-- Solution extraction, from extract.py: statuses other than OPTIMAL and
FEASIBLE yield a null objective and no tables, otherwise one entry per
table in mapping order; statistics are attached in both cases. -/
def extract_solution (stats : SolverStats) (status : Int) (objVal : Int)
    (bv : Nat → Nat → Nat → Bool) (m : ProblemMapping) : OptimizeResponse :=
  if statusToString status = "OPTIMAL" ∨ statusToString status = "FEASIBLE" then
    ⟨statusToString status, some objVal,
      (List.range m.tables.length).map (buildTableAssign m bv), stats⟩
  else
    ⟨statusToString status, none, [], stats⟩

/-- Outcome of one run of the opaque CP-SAT engine: status code, objective,
the boolean values of the seat decision variables, and statistics. -/
structure SolverOutcome where
  status : Int
  objective : Int
  boolValue : Nat → Nat → Nat → Bool
  stats : SolverStats

/-- The solve_seating pipeline of cp_sat.py with the model build and solve
steps abstracted as an oracle from the validated mapping to an outcome:
validation runs first, and when it rejects, nothing downstream of it is
consulted. -/
def solve_seating (solver : ProblemMapping → SolverOutcome) (req : OptimizeRequest) : Except WedplanError OptimizeResponse :=
  match create_mapping req with
  | Except.error e => Except.error e
  | Except.ok m =>
    let out := solver m
    Except.ok (extract_solution out.stats out.status out.objective out.boolValue m)

/-- Seats occupied by guest g over all tables, counting the satisfied seat
decision variables table by table. -/
def seatCount (caps : List Nat) (x : Nat → Nat → Nat → Bool) (g : Nat) : Nat :=
  ((List.range caps.length).map
    (fun t => ((List.range (caps.getD t 0)).filter (fun s => x g t s)).length)).sum

/-- Satisfaction of the per-guest half of add_assignment_constraints in
constraints.py: each guest occupies exactly one seat over all tables. -/
def exactlyOneSeatOK (numGuests : Nat) (caps : List Nat) (x : Nat → Nat → Nat → Bool) : Bool :=
  (List.range numGuests).all (fun g => seatCount caps x g == 1)

/-- Satisfaction of the per-seat half of add_assignment_constraints in
constraints.py: each seat hosts at most one guest. -/
def atMostOnePerSeatOK (numGuests : Nat) (caps : List Nat) (x : Nat → Nat → Nat → Bool) : Bool :=
  (List.range caps.length).all (fun t => (List.range (caps.getD t 0)).all
    (fun s => decide (((List.range numGuests).filter (fun g => x g t s)).length ≤ 1)))

/-- Satisfaction of link_y_to_x in constraints.py: the table indicator of a
guest equals the boolean or of the seat variables of that table, posted in
the source as a boolean max equality. -/
def linkOK (numGuests : Nat) (caps : List Nat) (x : Nat → Nat → Nat → Bool) (y : Nat → Nat → Bool) : Bool :=
  (List.range numGuests).all (fun g => (List.range caps.length).all (fun t =>
    y g t == (List.range (caps.getD t 0)).any (fun s => x g t s)))

/-- Satisfaction of the constraints posted by add_same_table_constraints in
constraints.py: for each group, every member beyond the first agrees with
the representative first member on every table indicator; groups with
fewer than two members post nothing. -/
def sameTableOK (groups : List (List Nat)) (numTables : Nat) (y : Nat → Nat → Bool) : Bool :=
  groups.all (fun grp => (grp.drop 1).all (fun other =>
    (List.range numTables).all (fun t => y (grp.headD 0) t == y other t)))

/-- Canonical unordered pair of group indices, from the objective builder. -/
def canonPair (i j : Nat) : Nat × Nat := (Nat.min i j, Nat.max i j)

/-- Modelled from the spec: the terms of the maximization objective
installed by the build_objective of the live pipeline. cp_sat.py invokes
build_objective with four arguments while the objective.py revision in the
tree declares six, so the live builder is absent; per the spec each edge
with nonzero score contributes the term score times the co-location
indicator of its canonical pair, and zero-score edges contribute nothing. -/
def buildObjectiveTerms (gidx : String → Nat) : List AffinityEdgeIn → List (Int × (Nat × Nat))
  | [] => []
  | e :: rest =>
    if e.score ≠ 0 then
      (e.score, canonPair (gidx e.a) (gidx e.b)) :: buildObjectiveTerms gidx rest
    else buildObjectiveTerms gidx rest

/-- Modelled from the spec: the canonical pairs for which the live
build_objective allocates a memoized co-location indicator variable, in
first-encounter order; edges with score zero allocate nothing. -/
def colocatedKeys (gidx : String → Nat) (acc : List (Nat × Nat)) : List AffinityEdgeIn → List (Nat × Nat)
  | [] => acc
  | e :: rest =>
    if e.score ≠ 0 then
      (let k := canonPair (gidx e.a) (gidx e.b)
       if k ∈ acc then colocatedKeys gidx acc rest
       else colocatedKeys gidx (acc ++ [k]) rest)
    else colocatedKeys gidx acc rest

/-- Value of the installed objective under a given valuation of the
co-location indicators. -/
def objectiveValue (terms : List (Int × (Nat × Nat))) (co : (Nat × Nat) → Bool) : Int :=
  (terms.map (fun p => p.1 * (if co p.2 then 1 else 0))).sum

/-- Concrete request used to exercise the capacity rejection: one table of
capacity two, a single guest, empty seats disallowed. -/
def reqCap : OptimizeRequest :=
  ⟨[⟨"t1", 2, none⟩], [⟨"a", "Alice"⟩], [], [], ⟨false⟩⟩

/-- Concrete request used to exercise the oversize-group rejection: largest
capacity three, one group of four members. -/
def reqBig : OptimizeRequest :=
  ⟨[⟨"t1", 2, none⟩, ⟨"t2", 3, none⟩],
   [⟨"a", "A"⟩, ⟨"b", "B"⟩, ⟨"c", "C"⟩, ⟨"d", "D"⟩],
   [⟨"fam", ["a", "b", "c", "d"]⟩], [], ⟨true⟩⟩

/-- Concrete seat variables used to exercise the cohesion encoding: guest g
sits at table 0 in seat g. -/
def xEx : Nat → Nat → Nat → Bool := fun g t s => decide (t = 0 ∧ s = g)

/-- Concrete table indicators matching xEx: everyone is at table 0. -/
def yEx : Nat → Nat → Bool := fun _ t => decide (t = 0)

/-- Concrete mapping used to exercise the extractor: one table of capacity
two and a single guest. -/
def mapEx : ProblemMapping :=
  ⟨[⟨"t1", 0, 2, none⟩], [⟨"g1", 0, "Alice"⟩], [], [], [], [], 2⟩

/-- Concrete solver values matching mapEx: the guest occupies seat 0 of
table 0. -/
def bvEx : Nat → Nat → Nat → Bool := fun g t s => decide (g = 0 ∧ t = 0 ∧ s = 0)

/-- Claim C9: the request model rejects implicit type coercion — a table
capacity given as a float or as a string is a schema error rather than
being coerced, and an integer capacity below 2 is likewise rejected; an
integer capacity of at least 2 is accepted unchanged. -/
theorem capacity_strict_typing :
    (∀ mantissa exponent : Int,
      parseCapacity (JVal.jfloat mantissa exponent) = Except.error SchemaError.wrongType) ∧
    (∀ s : String, parseCapacity (JVal.jstr s) = Except.error SchemaError.wrongType) ∧
    (∀ n : Int, n < 2 → parseCapacity (JVal.jint n) = Except.error SchemaError.outOfRange) ∧
    (∀ n : Int, 2 ≤ n → parseCapacity (JVal.jint n) = Except.ok n) := by
  refine ⟨fun _ _ => rfl, fun _ => rfl, fun n h => ?_, fun n h => ?_⟩
  · simp only [parseCapacity]
    rw [if_neg (by omega)]
  · simp only [parseCapacity]
    rw [if_pos h]

/-- Witness for C9 at concrete inputs: the float 6.0, the string 6, and the
integer 1 are all rejected. -/
theorem capacity_strict_typing_witness :
    parseCapacity (JVal.jfloat 60 (-1)) = Except.error SchemaError.wrongType ∧
    parseCapacity (JVal.jstr ("6")) = Except.error SchemaError.wrongType ∧
    parseCapacity (JVal.jint 1) = Except.error SchemaError.outOfRange ∧
    parseCapacity (JVal.jint 6) = Except.ok 6 :=
  ⟨capacity_strict_typing.1 60 (-1), capacity_strict_typing.2.1 ("6"),
   capacity_strict_typing.2.2.1 1 (by decide), capacity_strict_typing.2.2.2 6 (by decide)⟩

/-- Claim C10: the solver-status translation is total — every code outside
the known set falls back to UNKNOWN, and every translated status lies in
the closed five-element set. -/
theorem status_translation_total :
    (∀ code : Int, code ≠ 0 → code ≠ 1 → code ≠ 2 → code ≠ 3 → code ≠ 4 →
      statusToString code = "UNKNOWN") ∧
    (∀ code : Int,
      statusToString code = "OPTIMAL" ∨ statusToString code = "FEASIBLE" ∨
      statusToString code = "INFEASIBLE" ∨ statusToString code = "UNKNOWN" ∨
      statusToString code = "MODEL_INVALID") := by
  constructor
  · intro code h0 h1 h2 h3 h4
    simp [statusToString, h0, h1, h2, h3, h4]
  · intro code
    unfold statusToString
    split_ifs <;> simp

/-- Witness for C10: the out-of-range codes 7 and -3 both report UNKNOWN. -/
theorem status_translation_total_witness :
    statusToString 7 = "UNKNOWN" ∧ statusToString (-3) = "UNKNOWN" :=
  ⟨status_translation_total.1 7 (by decide) (by decide) (by decide) (by decide) (by decide),
   status_translation_total.1 (-3) (by decide) (by decide) (by decide) (by decide) (by decide)⟩

/-- Claim C4: a group with exactly one guest id is valid input — the group
model accepts exactly the groups whose guest id list is non-empty,
singletons included, and a singleton group posts no cohesion constraint,
serving only as a participant in the affinity graph. -/
theorem singleton_group_accepted :
    (∀ g : GroupIn, validateGroupIn g = true ↔ g.guest_ids ≠ []) ∧
    (∀ gid m : String, validateGroupIn ⟨gid, [m]⟩ = true) ∧
    (∀ (i numTables : Nat) (y : Nat → Nat → Bool), sameTableOK [[i]] numTables y = true) := by
  refine ⟨fun g => ?_, fun gid m => rfl, fun i numTables y => rfl⟩
  cases g with
  | mk gid ids => cases ids <;> simp [validateGroupIn]

/-- Witness for C4: a concrete singleton group passes validation. -/
theorem singleton_group_accepted_witness :
    validateGroupIn ⟨"single", ["dave"]⟩ = true :=
  singleton_group_accepted.2.1 ("single") ("dave")

/-- Claim C1: the affinity model is signed — the parser accepts exactly the
scores -1, 0 and +1, in particular -1; every nonzero-score edge contributes
the term score times its co-location indicator to the installed
maximization objective; and a -1 term makes the objective strictly larger
when the two endpoints are apart than when they share a table. -/
theorem signed_affinity_objective :
    parseScore (JVal.jint (-1)) = Except.ok (-1) ∧
    (∀ v n, parseScore v = Except.ok n → n = -1 ∨ n = 0 ∨ n = 1) ∧
    (∀ (gidx : String → Nat) (edges : List AffinityEdgeIn), ∀ e ∈ edges, e.score ≠ 0 →
      (e.score, canonPair (gidx e.a) (gidx e.b)) ∈ buildObjectiveTerms gidx edges) ∧
    (∀ (k : Nat × Nat) (together apart : (Nat × Nat) → Bool),
      together k = true → apart k = false →
      objectiveValue [(-1, k)] together < objectiveValue [(-1, k)] apart) := by
  refine ⟨rfl, ?_, ?_, ?_⟩
  · intro v n h
    cases v with
    | jint m =>
      by_cases hc : m = -1 ∨ m = 0 ∨ m = 1
      · simp only [parseScore, if_pos hc, Except.ok.injEq] at h
        subst h
        exact hc
      · simp only [parseScore, if_neg hc] at h
        cases h
    | jnull => simp [parseScore] at h
    | jbool b => simp [parseScore] at h
    | jfloat mantissa exponent => simp [parseScore] at h
    | jstr s => simp [parseScore] at h
  · intro gidx edges
    induction edges with
    | nil => intro e he; cases he
    | cons a rest ih =>
      intro e he hs
      rcases List.mem_cons.mp he with h | h
      · subst h
        simp only [buildObjectiveTerms, if_pos hs]
        exact List.mem_cons_self _ _
      · simp only [buildObjectiveTerms]
        split
        · exact List.mem_cons_of_mem _ (ih e h hs)
        · exact ih e h hs
  · intro k together apart h1 h2
    simp [objectiveValue, h1, h2]

/-- Witness for C1 at concrete inputs: a score of -1 parses, the single
negative edge yields the term -1 times its indicator, and separating the
endpoints beats colocating them. -/
theorem signed_affinity_objective_witness :
    parseScore (JVal.jint (-1)) = Except.ok (-1) ∧
    ((-1 : Int), canonPair 0 0) ∈ buildObjectiveTerms (fun _ => 0) [⟨"ga", "gb", -1⟩] ∧
    objectiveValue [(-1, ((0 : Nat), (1 : Nat)))] (fun _ => true) <
      objectiveValue [(-1, ((0 : Nat), (1 : Nat)))] (fun _ => false) :=
  ⟨signed_affinity_objective.1,
   signed_affinity_objective.2.2.1 (fun _ => 0) [⟨"ga", "gb", -1⟩] ⟨"ga", "gb", -1⟩
     (by simp) (by decide),
   signed_affinity_objective.2.2.2 (0, 1) (fun _ => true) (fun _ => false) rfl rfl⟩

/-- Claim C6: a co-location indicator is introduced only for edges with
nonzero score — a score of 0 is admitted by the parser, yet removing the
zero-score edges from any affinity list changes neither the allocated
indicator variables nor the installed objective terms. -/
theorem zero_score_skipped :
    parseScore (JVal.jint 0) = Except.ok 0 ∧
    (∀ (gidx : String → Nat) (edges : List AffinityEdgeIn),
      buildObjectiveTerms gidx edges =
        buildObjectiveTerms gidx (edges.filter (fun e => decide (e.score ≠ 0)))) ∧
    (∀ (gidx : String → Nat) (edges : List AffinityEdgeIn) (acc : List (Nat × Nat)),
      colocatedKeys gidx acc edges =
        colocatedKeys gidx acc (edges.filter (fun e => decide (e.score ≠ 0)))) := by
  refine ⟨rfl, ?_, ?_⟩
  · intro gidx edges
    induction edges with
    | nil => rfl
    | cons a rest ih =>
      by_cases hs : a.score ≠ 0 <;>
        simp [buildObjectiveTerms, List.filter_cons, hs, ih]
  · intro gidx edges
    induction edges with
    | nil => intro acc; rfl
    | cons a rest ih =>
      intro acc
      by_cases hs : a.score ≠ 0
      · by_cases hk : canonPair (gidx a.a) (gidx a.b) ∈ acc <;>
          simp [colocatedKeys, List.filter_cons, hs, hk, ih]
      · simp [colocatedKeys, List.filter_cons, hs, ih]

/-- Witness for C6: a concrete zero-score edge allocates no indicator and
contributes no term. -/
theorem zero_score_skipped_witness :
    parseScore (JVal.jint 0) = Except.ok 0 ∧
    colocatedKeys (fun _ => 0) [] [⟨"ga", "gb", 0⟩] =
      colocatedKeys (fun _ => 0) [] ([⟨"ga", "gb", 0⟩].filter (fun e => decide (e.score ≠ 0))) :=
  ⟨zero_score_skipped.1, zero_score_skipped.2.2 (fun _ => 0) [⟨"ga", "gb", 0⟩] []⟩

/-- Claim C7: the extracted response carries a non-null objective and one
table entry per mapped table exactly when the status is OPTIMAL or
FEASIBLE; every other status yields a null objective and an empty tables
list; solver statistics are attached in both cases. -/
theorem extract_status_gating (stats : SolverStats) (status : Int) (objVal : Int)
    (bv : Nat → Nat → Nat → Bool) (m : ProblemMapping) :
    (extract_solution stats status objVal bv m).status = statusToString status ∧
    ((extract_solution stats status objVal bv m).objective_value ≠ none ↔
      (statusToString status = "OPTIMAL" ∨ statusToString status = "FEASIBLE")) ∧
    ((statusToString status = "OPTIMAL" ∨ statusToString status = "FEASIBLE") →
      (extract_solution stats status objVal bv m).objective_value = some objVal ∧
      (extract_solution stats status objVal bv m).tables.length = m.tables.length) ∧
    (¬(statusToString status = "OPTIMAL" ∨ statusToString status = "FEASIBLE") →
      (extract_solution stats status objVal bv m).objective_value = none ∧
      (extract_solution stats status objVal bv m).tables = []) ∧
    (extract_solution stats status objVal bv m).solver_stats = stats := by
  by_cases h : statusToString status = "OPTIMAL" ∨ statusToString status = "FEASIBLE" <;>
    simp [extract_solution, h]

/-- Witness for C7: at the INFEASIBLE code the response has a null
objective and no tables. -/
theorem extract_status_gating_witness :
    (extract_solution ⟨0, 0⟩ 3 7 (fun _ _ _ => false)
        (ProblemMapping.mk [] [] [] [] [] [] 0)).objective_value = none ∧
    (extract_solution ⟨0, 0⟩ 3 7 (fun _ _ _ => false)
        (ProblemMapping.mk [] [] [] [] [] [] 0)).tables = [] :=
  (extract_status_gating ⟨0, 0⟩ 3 7 (fun _ _ _ => false)
    (ProblemMapping.mk [] [] [] [] [] [] 0)).2.2.2.1 (by decide)

/-- A list of naturals with nonzero sum has a nonzero element. -/
theorem sum_ne_zero_mem (l : List Nat) : l.sum ≠ 0 → ∃ n ∈ l, n ≠ 0 := by
  induction l with
  | nil => intro h; simp at h
  | cons a t ih =>
    intro h
    by_cases ha : a = 0
    · subst ha
      simp only [List.sum_cons, Nat.zero_add] at h
      obtain ⟨n, hn, hnz⟩ := ih h
      exact ⟨n, List.mem_cons_of_mem _ hn, hnz⟩
    · exact ⟨a, List.mem_cons_self _ _, ha⟩

/-- A guest whose seat count is one occupies some valid seat. -/
theorem seatCount_one_exists (caps : List Nat) (x : Nat → Nat → Nat → Bool) (g : Nat)
    (h : seatCount caps x g = 1) :
    ∃ t, t < caps.length ∧ ∃ s, s < caps.getD t 0 ∧ x g t s = true := by
  unfold seatCount at h
  have hne : (((List.range caps.length).map
      (fun t => ((List.range (caps.getD t 0)).filter (fun s => x g t s)).length)).sum) ≠ 0 := by
    omega
  obtain ⟨n, hn, hnz⟩ := sum_ne_zero_mem _ hne
  obtain ⟨t, ht, hft⟩ := List.mem_map.mp hn
  subst hft
  have hfil : ((List.range (caps.getD t 0)).filter (fun s => x g t s)) ≠ [] := by
    intro hnil
    rw [hnil] at hnz
    simp at hnz
  obtain ⟨s, hs⟩ := List.exists_mem_of_ne_nil _ hfil
  have hsf := List.mem_filter.mp hs
  exact ⟨t, List.mem_range.mp ht, s, List.mem_range.mp hsf.1, hsf.2⟩

/-- Pointwise reading of the satisfied boolean-or link constraints. -/
theorem linkOK_spec (numGuests : Nat) (caps : List Nat) (x : Nat → Nat → Nat → Bool)
    (y : Nat → Nat → Bool) (h : linkOK numGuests caps x y = true)
    (g t : Nat) (hg : g < numGuests) (ht : t < caps.length) :
    y g t = (List.range (caps.getD t 0)).any (fun s => x g t s) := by
  unfold linkOK at h
  rw [List.all_eq_true] at h
  have h1 := h g (List.mem_range.mpr hg)
  rw [List.all_eq_true] at h1
  exact eq_of_beq (h1 t (List.mem_range.mpr ht))

/-- Pointwise reading of the satisfied representative equalities. -/
theorem sameTableOK_spec (groups : List (List Nat)) (numTables : Nat)
    (y : Nat → Nat → Bool) (h : sameTableOK groups numTables y = true)
    (grp : List Nat) (hgrp : grp ∈ groups) (other : Nat) (ho : other ∈ grp.drop 1)
    (t : Nat) (ht : t < numTables) :
    y (grp.headD 0) t = y other t := by
  unfold sameTableOK at h
  rw [List.all_eq_true] at h
  have h1 := h grp hgrp
  rw [List.all_eq_true] at h1
  have h2 := h1 other ho
  rw [List.all_eq_true] at h2
  exact eq_of_beq (h2 t (List.mem_range.mpr ht))

/-- Claim C5: group cohesion holds through the representative encoding —
when the seat variables give every member exactly one seat, the table
indicators are the boolean or of the seat variables, and the posted
equalities between each member and the first member of its group are
satisfied, then every group occupies a single table: some table hosts every
member, each in a valid seat. -/
theorem same_table_groups_cohere
    (caps : List Nat) (numGuests : Nat) (groups : List (List Nat))
    (x : Nat → Nat → Nat → Bool) (y : Nat → Nat → Bool)
    (hmem : ∀ grp ∈ groups, ∀ i ∈ grp, i < numGuests)
    (hassign : exactlyOneSeatOK numGuests caps x = true)
    (hlink : linkOK numGuests caps x y = true)
    (hsame : sameTableOK groups caps.length y = true) :
    ∀ grp ∈ groups, grp ≠ [] →
      ∃ t, t < caps.length ∧ ∀ i ∈ grp, y i t = true ∧
        ∃ s, s < caps.getD t 0 ∧ x i t s = true := by
  intro grp hgrp hne
  obtain ⟨a, rest, rfl⟩ := List.exists_cons_of_ne_nil hne
  have ha : a < numGuests := hmem _ hgrp _ (List.mem_cons_self _ _)
  have hcount : seatCount caps x a = 1 := by
    unfold exactlyOneSeatOK at hassign
    rw [List.all_eq_true] at hassign
    exact eq_of_beq (hassign a (List.mem_range.mpr ha))
  obtain ⟨t, ht, s, hs, hx⟩ := seatCount_one_exists caps x a hcount
  have hya : y a t = true := by
    rw [linkOK_spec numGuests caps x y hlink a t ha ht]
    rw [List.any_eq_true]
    exact ⟨s, List.mem_range.mpr hs, hx⟩
  refine ⟨t, ht, ?_⟩
  intro i hi
  have hyi : y i t = true := by
    rcases List.mem_cons.mp hi with h | h
    · subst h; exact hya
    · have hrep := sameTableOK_spec groups caps.length y hsame (a :: rest) hgrp i
        (by simpa using h) t ht
      simp only [List.headD_cons] at hrep
      rw [← hrep]
      exact hya
  refine ⟨hyi, ?_⟩
  have hilt : i < numGuests := hmem _ hgrp _ hi
  have hlinki := linkOK_spec numGuests caps x y hlink i t hilt ht
  rw [hyi] at hlinki
  have hany := hlinki.symm
  rw [List.any_eq_true] at hany
  obtain ⟨s2, hs2, hxs2⟩ := hany
  exact ⟨s2, List.mem_range.mp hs2, hxs2⟩

/-- Witness for C5: a two-member group on two tables of capacity two, with
both members seated at table 0, satisfies the constraints and shares a
table. -/
theorem same_table_groups_cohere_witness :
    ∃ t, t < ([2, 2] : List Nat).length ∧ ∀ i ∈ ([0, 1] : List Nat),
      yEx i t = true ∧ ∃ s, s < ([2, 2] : List Nat).getD t 0 ∧ xEx i t s = true :=
  same_table_groups_cohere [2, 2] 2 [[0, 1]] xEx yEx
    (by decide) (by decide) (by decide) (by decide) [0, 1] (by decide) (by decide)

/-- Claim C2: with empty seats disallowed and the guest count different
from the aggregate seat capacity, and every earlier validation stage
passing, the validator rejects with CapacityError, and the solve pipeline
reports that error for every solver, attempting no solve. -/
theorem capacity_mismatch_rejected
    (req : OptimizeRequest) (gis : List GroupInfo)
    (hopt : req.options.allow_empty_seats = false)
    (hne : req.guests.length ≠ totalSeats req.tables)
    (hu : uniquenessCheck req = Except.ok ())
    (hg : groupInfosE req = Except.ok gis)
    (ha : checkAffinityRefs (groupIdMap req.groups) req.affinities = Except.ok ())
    (hs : sizeCheck (maxCapacity req.tables) gis = Except.ok ()) :
    create_mapping req = Except.error (WedplanError.capacityError capacityMessage) ∧
    ∀ solver, solve_seating solver req
      = Except.error (WedplanError.capacityError capacityMessage) := by
  have hcap : capacityCheck req.options req.guests.length (totalSeats req.tables)
      = Except.error (WedplanError.capacityError capacityMessage) := by
    unfold capacityCheck
    rw [hopt]
    simp [hne]
  have hcm : create_mapping req = Except.error (WedplanError.capacityError capacityMessage) := by
    simp [create_mapping, Bind.bind, Except.bind, hu, hg, ha, hs, hcap]
  refine ⟨hcm, fun solver => ?_⟩
  unfold solve_seating
  rw [hcm]

/-- Witness for C2: one guest against two seats with empty seats disallowed
is rejected with CapacityError and the pipeline never consults the
solver. -/
theorem capacity_mismatch_rejected_witness :
    create_mapping reqCap = Except.error (WedplanError.capacityError capacityMessage) ∧
    solve_seating (fun _ => ⟨0, 0, fun _ _ _ => false, ⟨0, 0⟩⟩) reqCap
      = Except.error (WedplanError.capacityError capacityMessage) :=
  ⟨(capacity_mismatch_rejected reqCap [] rfl (by decide) rfl rfl rfl rfl).1,
   (capacity_mismatch_rejected reqCap [] rfl (by decide) rfl rfl rfl rfl).2
     (fun _ => ⟨0, 0, fun _ _ _ => false, ⟨0, 0⟩⟩)⟩

/-- The size check fails on a list containing an oversize group, reporting
an oversize group size. -/
theorem sizeCheck_err_of_big (maxCap : Nat) (l : List GroupInfo)
    (h : ∃ gi ∈ l, maxCap < gi.guest_indices.length) :
    ∃ size, maxCap < size ∧
      sizeCheck maxCap l = Except.error (WedplanError.groupTooLarge size maxCap) := by
  induction l with
  | nil =>
    obtain ⟨gi, hgi, _⟩ := h
    cases hgi
  | cons a rest ih =>
    by_cases hbig : maxCap < a.guest_indices.length
    · exact ⟨a.guest_indices.length, hbig, by simp [sizeCheck, hbig]⟩
    · obtain ⟨gi, hgi, hlen⟩ := h
      rcases List.mem_cons.mp hgi with heq | hmem2
      · subst heq
        exact absurd hlen hbig
      · obtain ⟨size, hslt, hrec⟩ := ih ⟨gi, hmem2, hlen⟩
        exact ⟨size, hslt, by simp [sizeCheck, hbig, hrec]⟩

/-- Claim C3: a request containing a group whose member count exceeds the
largest table capacity is rejected at validation with a GroupTooLarge
error carrying the group size and that maximum, and the solve pipeline
reports that error for every solver instead of proceeding. -/
theorem oversize_group_rejected
    (req : OptimizeRequest) (gis : List GroupInfo)
    (hu : uniquenessCheck req = Except.ok ())
    (hg : groupInfosE req = Except.ok gis)
    (ha : checkAffinityRefs (groupIdMap req.groups) req.affinities = Except.ok ())
    (hbig : ∃ gi ∈ gis, maxCapacity req.tables < gi.guest_indices.length) :
    ∃ size, maxCapacity req.tables < size ∧
      create_mapping req
        = Except.error (WedplanError.groupTooLarge size (maxCapacity req.tables)) ∧
      ∀ solver, solve_seating solver req
        = Except.error (WedplanError.groupTooLarge size (maxCapacity req.tables)) := by
  obtain ⟨size, hlt, hsz⟩ := sizeCheck_err_of_big (maxCapacity req.tables) gis hbig
  have hcm : create_mapping req
      = Except.error (WedplanError.groupTooLarge size (maxCapacity req.tables)) := by
    simp [create_mapping, Bind.bind, Except.bind, hu, hg, ha, hsz]
  refine ⟨size, hlt, hcm, fun solver => ?_⟩
  unfold solve_seating
  rw [hcm]

/-- Witness for C3: a four-member group against a largest capacity of three
is rejected with GroupTooLarge before any solve. -/
theorem oversize_group_rejected_witness :
    ∃ size, maxCapacity reqBig.tables < size ∧
      create_mapping reqBig
        = Except.error (WedplanError.groupTooLarge size (maxCapacity reqBig.tables)) ∧
      ∀ solver, solve_seating solver reqBig
        = Except.error (WedplanError.groupTooLarge size (maxCapacity reqBig.tables)) :=
  oversize_group_rejected reqBig [⟨"fam", 0, [0, 1, 2, 3]⟩] rfl rfl rfl (by decide)

/-- Indexing with a default into a map over a range selects the function
value at the index. -/
theorem getD_map_range {α : Type} (f : Nat → α) (n i : Nat) (d : α) (h : i < n) :
    ((List.range n).map f).getD i d = f i := by
  rw [List.getD_eq_getElem?_getD, List.getElem?_map, List.getElem?_range h]
  rfl

/-- Claim C8: for a solved OPTIMAL or FEASIBLE status the extractor emits
the entry of table t from the mapping at position t, that entry carries the
table id and exactly capacity-many seats whose seat indices are 0 up to
capacity minus 1 in order, and every seat holds either the id and name of
the guest the solver placed there or a null pair. -/
theorem extract_seat_indexing (stats : SolverStats) (status : Int) (objVal : Int)
    (bv : Nat → Nat → Nat → Bool) (m : ProblemMapping) (t : Nat)
    (hst : statusToString status = "OPTIMAL" ∨ statusToString status = "FEASIBLE")
    (ht : t < m.tables.length) :
    (extract_solution stats status objVal bv m).tables.getD t defaultTableAssignment
      = buildTableAssign m bv t ∧
    (buildTableAssign m bv t).table_id = (m.tables.getD t defaultTableInfo).id ∧
    (buildTableAssign m bv t).seats.length = (m.tables.getD t defaultTableInfo).capacity ∧
    (∀ k, k < (m.tables.getD t defaultTableInfo).capacity →
      ((buildTableAssign m bv t).seats.getD k defaultSeat).seat_index = k ∧
      ((∃ g, g < m.guests.length ∧ bv g t k = true ∧
          ((buildTableAssign m bv t).seats.getD k defaultSeat).guest_id
            = some ((m.guests.getD g defaultGuestInfo).id) ∧
          ((buildTableAssign m bv t).seats.getD k defaultSeat).guest_name
            = some ((m.guests.getD g defaultGuestInfo).name)) ∨
        (((buildTableAssign m bv t).seats.getD k defaultSeat).guest_id = none ∧
          ((buildTableAssign m bv t).seats.getD k defaultSeat).guest_name = none))) := by
  refine ⟨?_, rfl, ?_, ?_⟩
  · unfold extract_solution
    rw [if_pos hst]
    exact getD_map_range _ _ _ _ ht
  · simp [buildTableAssign]
  · intro k hk
    have hseat : (buildTableAssign m bv t).seats.getD k defaultSeat = buildSeat m bv t k := by
      unfold buildTableAssign
      exact getD_map_range _ _ _ _ hk
    rw [hseat]
    cases hfind : (List.range m.guests.length).find? (fun g => bv g t k) with
    | none =>
      refine ⟨by simp [buildSeat, hfind], Or.inr ?_⟩
      simp [buildSeat, hfind]
    | some g =>
      have hgv := List.find?_some hfind
      have hgmem := List.mem_of_find?_eq_some hfind
      refine ⟨by simp [buildSeat, hfind], Or.inl ⟨g, List.mem_range.mp hgmem, hgv, ?_, ?_⟩⟩
      · simp [buildSeat, hfind]
      · simp [buildSeat, hfind]

/-- Witness for C8: the concrete single-table mapping at OPTIMAL yields the
table entry in mapping order with capacity-many seats. -/
theorem extract_seat_indexing_witness :
    (extract_solution ⟨0, 0⟩ 4 1 bvEx mapEx).tables.getD 0 defaultTableAssignment
      = buildTableAssign mapEx bvEx 0 ∧
    (buildTableAssign mapEx bvEx 0).seats.length
      = (mapEx.tables.getD 0 defaultTableInfo).capacity :=
  ⟨(extract_seat_indexing ⟨0, 0⟩ 4 1 bvEx mapEx 0 (by decide) (by decide)).1,
   (extract_seat_indexing ⟨0, 0⟩ 4 1 bvEx mapEx 0 (by decide) (by decide)).2.2.1⟩

end Wedplan
